import Mathlib

/-!
Verification of the booking core of the `quicker-checker-inner` server
(`src/server/index.ts`): the variation (service) catalog cache, the duration
resolver, the segment sequencer, the boarding expander, the appointment
compiler of `POST /api/appointments/direct`, and the auto-check-in policy.

Modelling conventions:
* Instants are `Int` milliseconds since the epoch (JavaScript `Date.getTime()`).
  The `.toISOString().replace(...)` formatting in the source is injective on
  millisecond instants, so equality of formatted strings is equality of `Int`s.
* JavaScript objects coming over the wire are structures with `Option` fields
  (`none` = the field is `undefined`/absent).
* The JS truthiness operators `||` and `??` are embedded by explicit helpers
  (`jsOrInt`, `jsOrStr`, ...): `x || d` treats `0`, `""`, `undefined` as falsy,
  `x ?? d` only `undefined`.
* `Map` objects are association lists with `Map.get`/`Map.set` semantics.
* `console.log`-only computations of the source (they neither change state nor
  influence the result) are not reproduced.
-/

namespace QuickerChecker

/-! ### Hardcoded constants (src/server/index.ts lines 25-83, 146) -/

def DAYCARE_VARIATIONS_weekday : String := "91629241"

def DAYCARE_VARIATIONS_saturday : String := "92628859"

def DAYCARE_VARIATIONS_sunday : String := "111325854"

/-- `Object.values(DAYCARE_VARIATIONS)` in declaration order. -/
def daycareVariationIdValues : List String :=
  [DAYCARE_VARIATIONS_weekday, DAYCARE_VARIATIONS_saturday, DAYCARE_VARIATIONS_sunday]

def EVALUATION_VARIATION_ID : String := "91420537"

def EMPLOYEE_IDS_boarding : String := "295288"

def EMPLOYEE_IDS_spaServices : String := "295289"

def EMPLOYEE_IDS_evaluation : String := "295290"

def EMPLOYEE_IDS_daycare : String := "295287"

/-- `RESOURCE_MAP` (index.ts lines 41-50), a record keyed by variation id. -/
def RESOURCE_MAP : List (String × String) :=
  [(DAYCARE_VARIATIONS_weekday, EMPLOYEE_IDS_daycare),
   (DAYCARE_VARIATIONS_saturday, EMPLOYEE_IDS_daycare),
   (EVALUATION_VARIATION_ID, EMPLOYEE_IDS_evaluation),
   ("91404079", EMPLOYEE_IDS_boarding),
   ("91404147", EMPLOYEE_IDS_boarding),
   ("111734724", EMPLOYEE_IDS_boarding)]

/-- Initial contents of the mutable `VARIATION_NAMES` record (lines 53-69). -/
def VARIATION_NAMES_initial : List (String × String) :=
  [("91629241", "Daycare"),
   ("92628859", "Saturday Daycare"),
   ("110709520", "Resident Daycare"),
   ("91420537", "Evaluation"),
   ("99860007", "Bath (Primary)"),
   ("91629719", "Townie Bath"),
   ("91629630", "Townie Deluxe Bath"),
   ("91425203", "Nails"),
   ("106411403", "Stand Alone Nails"),
   ("91425254", "Blueberry Facial"),
   ("91425350", "Teeth Brushing"),
   ("110883216", "All Add-Ons"),
   ("91404079", "Boarding - 1 Dog Townhome"),
   ("91404147", "Boarding - 1 Dog Luxury Suite"),
   ("111734724", "Boarding - 1 Dog Double Suite")]

/-- `ADD_ON_VARIATION_IDS` (lines 72-83): the hardcoded set of add-on ids. -/
def ADD_ON_VARIATION_IDS : List String :=
  ["91629719", "91629630", "91425203", "106411403", "91425254",
   "91425350", "110883216", "112837451", "112837449", "110763601"]

/-- `SPA_PRIMARY_SERVICE_ID` (line 146): primary Bath, parent for spa add-ons. -/
def SPA_PRIMARY_SERVICE_ID : String := "99860007"

/-! ### JS truthiness helpers -/

/-- `x || d` on an optional number: `undefined` and `0` are falsy. -/
def jsOrInt (x : Option Int) (d : Int) : Int :=
  match x with
  | some v => if v = 0 then d else v
  | none => d

/-- `x || d` on an optional string: `undefined` and `""` are falsy. -/
def jsOrStr (x : Option String) (d : String) : String :=
  match x with
  | some v => if v = "" then d else v
  | none => d

/-- `x || y` keeping the optional shape: first truthy operand, else `y`. -/
def jsOrOptInt (x y : Option Int) : Option Int :=
  match x with
  | some v => if v = 0 then y else some v
  | none => y

/-- `x || false` on an optional boolean. -/
def jsOrBool (x : Option Bool) : Bool :=
  match x with
  | some b => b
  | none => false

/-- `Map.get` / record lookup on an association list. -/
def mapGet {α β : Type} [BEq α] (m : List (α × β)) (k : α) : Option β :=
  (m.find? (fun p => p.1 == k)).map (fun p => p.2)

/-- `Map.set`: overwrite the existing binding, else append a new one. -/
def mapSet {α β : Type} [BEq α] (m : List (α × β)) (k : α) (v : β) : List (α × β) :=
  if m.any (fun p => p.1 == k) then
    m.map (fun p => if p.1 == k then (k, v) else p)
  else
    m ++ [(k, v)]

/-! ### Variation cache and duration resolver (lines 96-143) -/

/-- `VariationInfo` (index.ts lines 96-104, fields as built on lines 316-326). -/
structure VariationInfo where
  id : String
  name : String
  service_name : String
  externalId : String
  duration : Int
  add_on : Bool
  price : Int
  time_span_range : Option (Int × Int)
  multiplier_enabled : Bool
deriving Repr, DecidableEq

/-- The mutable module-level `variationCache : Map<string, VariationInfo>`. -/
abbrev VarCache : Type := List (String × VariationInfo)

def cacheGet (cache : VarCache) (varId : String) : Option VariationInfo :=
  mapGet cache varId

/-- `getVariationDuration` (lines 109-133): `time_span_range[0]` when positive,
else the `duration` field when positive, else the fixed 15-minute fallback;
a cache miss also yields 15. Total by construction (the source only performs a
guarded map lookup and field reads, and never throws). -/
def getVariationDuration (cache : VarCache) (varId : String) : Int :=
  match cacheGet cache varId with
  | none => 15
  | some cached =>
    match cached.time_span_range with
    | some r =>
      if r.1 > 0 then r.1
      else if cached.duration > 0 then cached.duration
      else 15
    | none =>
      if cached.duration > 0 then cached.duration
      else 15

/-- `getApiDuration` (lines 136-138): same logic as `getVariationDuration`. -/
def getApiDuration (cache : VarCache) (varId : String) : Int :=
  getVariationDuration cache varId

/-- `getVariationInfo` (lines 141-143). -/
def getVariationInfo (cache : VarCache) (varId : String) : Option VariationInfo :=
  cacheGet cache varId

/-- The resolver always yields a strictly positive number of minutes. -/
theorem getVariationDuration_pos (cache : VarCache) (varId : String) :
    0 < getVariationDuration cache varId := by
  unfold getVariationDuration
  split
  · norm_num
  · split
    · split_ifs <;> omega
    · split_ifs <;> omega

/-- C4: duration-resolver precedence. If the cached record has a unit-span
lower bound `> 0` it wins; otherwise a positive catalog `duration` field;
otherwise (and on a cache miss) the fixed 15-minute fallback. The resolver is
a total function (pure, never raises) by construction. -/
theorem c4_duration_resolver_precedence (cache : VarCache) (varId : String) :
    (∀ c lo hi, cacheGet cache varId = some c → c.time_span_range = some (lo, hi) →
        0 < lo → getVariationDuration cache varId = lo)
    ∧ (∀ c, cacheGet cache varId = some c →
        (∀ lo hi, c.time_span_range = some (lo, hi) → lo ≤ 0) →
        0 < c.duration → getVariationDuration cache varId = c.duration)
    ∧ (∀ c, cacheGet cache varId = some c →
        (∀ lo hi, c.time_span_range = some (lo, hi) → lo ≤ 0) →
        c.duration ≤ 0 → getVariationDuration cache varId = 15)
    ∧ (cacheGet cache varId = none → getVariationDuration cache varId = 15) := by
  refine ⟨?_, ?_, ?_, ?_⟩
  · intro c lo hi hc hr hlo
    simp only [getVariationDuration, hc, hr]
    simp [hlo]
  · intro c hc hr hd
    simp only [getVariationDuration, hc]
    cases hrr : c.time_span_range with
    | none => simp [hrr, hd]
    | some r =>
      obtain ⟨lo, hi⟩ := r
      have hle := hr lo hi hrr
      simp [hrr, hd, show ¬ ((0:Int) < lo) by omega]
  · intro c hc hr hd
    simp only [getVariationDuration, hc]
    cases hrr : c.time_span_range with
    | none => simp [hrr, show ¬ ((0:Int) < c.duration) by omega]
    | some r =>
      obtain ⟨lo, hi⟩ := r
      have hle := hr lo hi hrr
      simp [hrr, show ¬ ((0:Int) < lo) by omega, show ¬ ((0:Int) < c.duration) by omega]
  · intro hc
    simp only [getVariationDuration, hc]

/-- The spec's three duration test vectors, obtained by applying the precedence
theorem at concrete caches: span `[15,15]` with `duration = 0` resolves to 15
via the span; no span with `duration = 20160` resolves to 20160; neither
resolves to the 15-minute fallback; and a bare cache miss resolves to 15. -/
theorem c4_duration_resolver_precedence_witness :
    getVariationDuration
      [("a", ⟨"a", "S", "Spa", "a", 0, false, 0, some (15, 15), false⟩)] "a" = 15
    ∧ getVariationDuration
      [("b", ⟨"b", "S", "Spa", "b", 20160, false, 0, none, false⟩)] "b" = 20160
    ∧ getVariationDuration
      [("c", ⟨"c", "S", "Spa", "c", 0, false, 0, none, false⟩)] "c" = 15
    ∧ getVariationDuration [] "d" = 15 := by
  refine ⟨?_, ?_, ?_, ?_⟩
  · exact (c4_duration_resolver_precedence
      [("a", ⟨"a", "S", "Spa", "a", 0, false, 0, some (15, 15), false⟩)] "a").1
      ⟨"a", "S", "Spa", "a", 0, false, 0, some (15, 15), false⟩ 15 15 rfl rfl (by norm_num)
  · exact (c4_duration_resolver_precedence
      [("b", ⟨"b", "S", "Spa", "b", 20160, false, 0, none, false⟩)] "b").2.1
      ⟨"b", "S", "Spa", "b", 20160, false, 0, none, false⟩ rfl
      (by intro lo hi h; simp at h) (by norm_num)
  · exact (c4_duration_resolver_precedence
      [("c", ⟨"c", "S", "Spa", "c", 0, false, 0, none, false⟩)] "c").2.2.1
      ⟨"c", "S", "Spa", "c", 0, false, 0, none, false⟩ rfl
      (by intro lo hi h; simp at h) (by norm_num)
  · exact (c4_duration_resolver_precedence [] "d").2.2.2 rfl

/-! ### String helpers for the boarding classifier

`String.toLowerCase().includes('boarding')` is embedded over the character
list of the string, so that every definition evaluates by `decide`/`rfl`. -/

def charsHavePrefix : List Char → List Char → Bool
  | _, [] => true
  | [], _ :: _ => false
  | c :: cs, d :: ds => c == d && charsHavePrefix cs ds

def charsContain : List Char → List Char → Bool
  | [], pat => pat.isEmpty
  | c :: cs, pat => charsHavePrefix (c :: cs) pat || charsContain cs pat

/-- `s.includes(sub)` (for non-empty `sub`, substring occurrence test). -/
def jsIncludes (s sub : String) : Bool :=
  charsContain s.data sub.data

/-- `s.toLowerCase()` (ASCII case mapping, as used on service names). -/
def jsToLower (s : String) : String :=
  String.mk (s.data.map Char.toLower)

/-! ### The direct-booking compiler (POST /api/appointments/direct)

The pure state-and-payload computation of the handler at index.ts lines
836-1081, given the current variation cache and `VARIATION_NAMES` contents.
Log-only computations (lines 855-861, 875-898 compute values that are only
printed) are not reproduced. -/

/-- One entry of the `variations` array sent to the Partner API. The boarding
expander (lines 1021-1027) emits entries without `variation_partner_id`, hence
the `Option`. -/
structure BookedVariation where
  variation_mytime_id : String
  variation_partner_id : Option String
  variation_employee_id : String
  variation_begin_at : Int
  variation_end_at : Int
  price : Int
  parent_id : Option String
deriving Repr, DecidableEq

/-- The request body fields read by the handler (line 841). `variations` holds
the ids extracted on line 853 (`String(v.variation_mytime_id || v.variationId)`). -/
structure DirectBookingRequest where
  dogId : Option String
  variationId : Option String
  variations : Option (List String)
  beginAt : Int
  endAt : Option Int
  employeeId : Option String
  clientId : Option String
deriving Repr, DecidableEq

/-- The sequencer loop (lines 900-935): `requestedVarIds.map((varId, index) =>
...)` with the mutable `currentStart` cursor made explicit. Each segment begins
at the cursor, ends `getVariationDuration` minutes later, and the cursor
advances to that end; every segment with `index > 0` gets
`parent_id = primaryVariationId`. -/
def seqGo (cache : VarCache) (primaryVariationId : String) :
    Int → Nat → List String → List BookedVariation
  | _, _, [] => []
  | currentStart, index, varId :: rest =>
    let varEmployeeId := jsOrStr (mapGet RESOURCE_MAP varId) EMPLOYEE_IDS_spaServices
    let varInfo := getVariationInfo cache varId
    let varPrice := (varInfo.map (fun i => i.price)).getD 0
    let varDuration := getVariationDuration cache varId
    let varEnd := currentStart + varDuration * 60000
    { variation_mytime_id := varId,
      variation_partner_id := some (jsOrStr (varInfo.map (fun i => i.externalId)) varId),
      variation_employee_id := varEmployeeId,
      variation_begin_at := currentStart,
      variation_end_at := varEnd,
      price := varPrice,
      parent_id := if index = 0 then none else some primaryVariationId }
      :: seqGo cache primaryVariationId varEnd (index + 1) rest

/-- The single-`variationId` branch (lines 939-961): one segment from
`beginAt` to `beginAt + (getApiDuration(variationId) || 15)` minutes. -/
def buildSingleVariation (cache : VarCache) (req : DirectBookingRequest) :
    Option (List BookedVariation) :=
  match req.variationId with
  | some variationId =>
    if variationId = "" then none
    else
      let varInfo := getVariationInfo cache variationId
      let varPrice := (varInfo.map (fun i => i.price)).getD 0
      let finalEmployeeId := jsOrStr req.employeeId
        (jsOrStr (mapGet RESOURCE_MAP variationId) EMPLOYEE_IDS_spaServices)
      let apiDur := jsOrInt (some (getApiDuration cache variationId)) 15
      let strictEndAt := req.beginAt + apiDur * 60000
      some [{ variation_mytime_id := variationId,
              variation_partner_id := some (jsOrStr (varInfo.map (fun i => i.externalId)) variationId),
              variation_employee_id := finalEmployeeId,
              variation_begin_at := req.beginAt,
              variation_end_at := strictEndAt,
              price := varPrice,
              parent_id := none }]
  | none => none

/-- Lines 843-965: build the initial `variationsArray`. `none` is the
`res.status(400).json(\x7b error: 'Missing variations' \x7d)` rejection. On the
array branch, if every requested id is in the hardcoded `ADD_ON_VARIATION_IDS`
set, `SPA_PRIMARY_SERVICE_ID` is prepended (lines 864-870), and the primary
variation id is the first id of the (possibly prepended) list (line 873). -/
def buildInitialVariations (cache : VarCache) (req : DirectBookingRequest) :
    Option (List BookedVariation) :=
  match req.variations with
  | some vs =>
    if vs.length > 0 then
      let allAreAddOns := vs.all (fun id => ADD_ON_VARIATION_IDS.contains id)
      let finalIds := if allAreAddOns then SPA_PRIMARY_SERVICE_ID :: vs else vs
      let primaryVariationId := finalIds.headD ""
      some (seqGo cache primaryVariationId req.beginAt 0 finalIds)
    else
      buildSingleVariation cache req
  | none => buildSingleVariation cache req

/-- `variationsArray[0]?.variation_mytime_id` (line 971). -/
def primaryVarIdRaw (variationsArray : List BookedVariation) : Option String :=
  variationsArray.head?.map (fun v => v.variation_mytime_id)

/-- `getVariationInfo(primaryVarIdRaw)` (line 972); `undefined` argument gives
a cache miss. -/
def primaryInfoOf (cache : VarCache) (variationsArray : List BookedVariation) :
    Option VariationInfo :=
  match primaryVarIdRaw variationsArray with
  | some id => getVariationInfo cache id
  | none => none

/-- Lines 973-974: a booking is classified as boarding when the primary
variation's `service_name` is `"Boarding"`, or its display name
(`primaryInfo?.name || VARIATION_NAMES[id] || ''`) contains `"boarding"`
case-insensitively. -/
def isBoardingOf (cache : VarCache) (variationNames : List (String × String))
    (variationsArray : List BookedVariation) : Bool :=
  let primaryInfo := primaryInfoOf cache variationsArray
  let primaryVarName := jsOrStr (primaryInfo.map (fun i => i.name))
    (jsOrStr (match primaryVarIdRaw variationsArray with
              | some id => mapGet variationNames id
              | none => none) "")
  (primaryInfo.map (fun i => i.service_name) == some "Boarding")
    || jsIncludes (jsToLower primaryVarName) "boarding"

/-- JavaScript `Math.round(a / b)` for integers with `b > 0`:
`⌊a/b + 1/2⌋ = ⌊(2a+b)/(2b)⌋` (JS rounds half toward positive infinity). -/
def jsMathRound (a b : Int) : Int :=
  Int.fdiv (2 * a + b) (2 * b)

def msPerDay : Int := 24 * 60 * 60 * 1000

/-- Line 1000: the checkout instant is the supplied `endAt` hint, defaulting to
`beginAt + 24h`. -/
def checkoutDateOf (beginAt : Int) (endAt : Option Int) : Int :=
  match endAt with
  | some e => e
  | none => beginAt + msPerDay

/-- Line 1003: `nights = Math.max(1, Math.round((checkout - begin) / 24h))`. -/
def nightsOf (beginAt : Int) (endAt : Option Int) : Int :=
  max 1 (jsMathRound (checkoutDateOf beginAt endAt - beginAt) msPerDay)

/-- Line 1007: `baseSpan = primaryInfo?.time_span_range?.[0] || 1440`. -/
def baseSpanOf (cache : VarCache) (variationsArray : List BookedVariation) : Int :=
  jsOrInt ((primaryInfoOf cache variationsArray).bind
    (fun i => i.time_span_range.map (fun r => r.1))) 1440

/-- The boarding expander (lines 1016-1029): one variation entry per night,
night `i` spanning `[begin + i*baseSpan, begin + (i+1)*baseSpan]` minutes. -/
def nightVariationsOf (cache : VarCache) (beginAt : Int) (endAt : Option Int)
    (variationsArray : List BookedVariation) : List BookedVariation :=
  let primaryInfo := primaryInfoOf cache variationsArray
  let nights := nightsOf beginAt endAt
  let baseSpan := baseSpanOf cache variationsArray
  let variationId := (primaryVarIdRaw variationsArray).getD ""
  let employeeId := jsOrStr (mapGet RESOURCE_MAP variationId) EMPLOYEE_IDS_boarding
  let varPrice := (primaryInfo.map (fun i => i.price)).getD 55
  (List.range nights.toNat).map (fun (i : Nat) =>
    { variation_mytime_id := variationId,
      variation_partner_id := none,
      variation_employee_id := employeeId,
      variation_begin_at := beginAt + (i : Int) * baseSpan * 60000,
      variation_end_at := beginAt + ((i : Int) + 1) * baseSpan * 60000,
      price := varPrice,
      parent_id := none })

/-- The appointment-level fields sent upstream (lines 1065-1072), plus the
final `variations` array. -/
structure CompiledPayload where
  begin_at : Int
  end_at : Int
  employee_mytime_id : String
  variations : List BookedVariation
deriving Repr, DecidableEq

/-- Lines 967-1072: determine the primary employee, classify boarding versus
standard, in the boarding case replace the array by the per-night expansion,
and set `end_at` to the last variation's `variation_end_at` (lines 1036 and
1061; the `getD 0` default is unreachable, the array is never empty there). -/
def finalizeAppointment (cache : VarCache) (variationNames : List (String × String))
    (beginAt : Int) (endAt : Option Int)
    (variationsArray : List BookedVariation) : CompiledPayload :=
  let primaryEmployeeId := jsOrStr
    (variationsArray.head?.map (fun v => v.variation_employee_id)) EMPLOYEE_IDS_spaServices
  if isBoardingOf cache variationNames variationsArray then
    let nightVariations := nightVariationsOf cache beginAt endAt variationsArray
    { begin_at := beginAt,
      end_at := (nightVariations.getLast?.map (fun v => v.variation_end_at)).getD 0,
      employee_mytime_id := primaryEmployeeId,
      variations := nightVariations }
  else
    { begin_at := beginAt,
      end_at := (variationsArray.getLast?.map (fun v => v.variation_end_at)).getD 0,
      employee_mytime_id := primaryEmployeeId,
      variations := variationsArray }

inductive CompileOutcome where
  | missingVariations : CompileOutcome
  | payload : CompiledPayload → CompileOutcome
deriving Repr, DecidableEq

/-- The complete pure compilation step of `POST /api/appointments/direct`
(lines 843-1081), from the current cache and names state and the request body
to either the `Missing variations` rejection or the compiled payload. -/
def directCompile (cache : VarCache) (variationNames : List (String × String))
    (req : DirectBookingRequest) : CompileOutcome :=
  match buildInitialVariations cache req with
  | none => CompileOutcome.missingVariations
  | some variationsArray =>
    CompileOutcome.payload (finalizeAppointment cache variationNames req.beginAt req.endAt variationsArray)

/-! ### Sample catalog records for concrete witnesses -/

def bathSample : VariationInfo :=
  ⟨"99860007", "Bath (Primary)", "Spa", "99860007", 0, false, 25, some (1, 1), false⟩

def townieSample : VariationInfo :=
  ⟨"91629719", "Townie Bath", "Spa", "91629719", 0, true, 30, some (15, 15), false⟩

def boardingSample : VariationInfo :=
  ⟨"91404079", "Boarding - 1 Dog Townhome", "Boarding", "91404079", 20160, false, 55,
    some (1440, 1440), true⟩

def sampleCache : VarCache :=
  [("99860007", bathSample), ("91629719", townieSample), ("91404079", boardingSample)]

/-! ### Sequencer lemmas -/

theorem seqGo_length (cache : VarCache) (p : String) :
    ∀ (ids : List String) (c : Int) (i : Nat), (seqGo cache p c i ids).length = ids.length := by
  intro ids
  induction ids with
  | nil => intro c i; rfl
  | cons x rest ih => intro c i; simp [seqGo, ih]

theorem seqGo_head_begin (cache : VarCache) (p : String) (ids : List String) (c : Int) (i : Nat)
    (v : BookedVariation) (h : (seqGo cache p c i ids).head? = some v) :
    v.variation_begin_at = c := by
  cases ids with
  | nil => simp [seqGo] at h
  | cons x rest =>
    simp only [seqGo, List.head?_cons, Option.some.injEq] at h
    subst h
    rfl

theorem seqGo_chain (cache : VarCache) (p : String) :
    ∀ (ids : List String) (c : Int) (i : Nat),
      List.Chain' (fun a b => a.variation_end_at = b.variation_begin_at) (seqGo cache p c i ids) := by
  intro ids
  induction ids with
  | nil => intro c i; simp [seqGo]
  | cons x rest ih =>
    intro c i
    simp only [seqGo]
    rw [List.chain'_cons']
    constructor
    · intro y hy
      rw [Option.mem_def] at hy
      have hb := seqGo_head_begin cache p rest _ (i + 1) y hy
      rw [hb]
    · exact ih _ _

theorem seqGo_parent (cache : VarCache) (p : String) :
    ∀ (ids : List String) (c : Int) (i : Nat), 1 ≤ i →
      ∀ v ∈ seqGo cache p c i ids, v.parent_id = some p := by
  intro ids
  induction ids with
  | nil => intro c i hi v hv; simp [seqGo] at hv
  | cons x rest ih =>
    intro c i hi v hv
    simp only [seqGo, List.mem_cons] at hv
    rcases hv with h | h
    · subst h
      have hne : ¬ (i = 0) := by omega
      simp [hne]
    · exact ih _ (i + 1) (by omega) v h

theorem seqGo_begin_le_end (cache : VarCache) (p : String) :
    ∀ (ids : List String) (c : Int) (i : Nat),
      ∀ v ∈ seqGo cache p c i ids, v.variation_begin_at ≤ v.variation_end_at := by
  intro ids
  induction ids with
  | nil => intro c i v hv; simp [seqGo] at hv
  | cons x rest ih =>
    intro c i v hv
    simp only [seqGo, List.mem_cons] at hv
    rcases hv with h | h
    · subst h
      have hd := getVariationDuration_pos cache x
      show c ≤ c + getVariationDuration cache x * 60000
      omega
    · exact ih _ _ v h

/-- In a gap-free segment list whose segments do not end before they begin,
every segment ends no later than the final segment does. -/
theorem chain_end_le_last (l : List BookedVariation)
    (hchain : List.Chain' (fun a b => a.variation_end_at = b.variation_begin_at) l)
    (hmono : ∀ v ∈ l, v.variation_begin_at ≤ v.variation_end_at) :
    ∀ w, l.getLast? = some w → ∀ v ∈ l, v.variation_end_at ≤ w.variation_end_at := by
  induction l with
  | nil => intro w hw; simp at hw
  | cons a t ih =>
    intro w hw v hv
    cases t with
    | nil =>
      simp only [List.getLast?_singleton, Option.some.injEq] at hw
      simp only [List.mem_singleton] at hv
      subst hw; subst hv
      exact le_refl _
    | cons b t' =>
      rw [List.getLast?_cons_cons] at hw
      have hparts := List.chain'_cons'.mp hchain
      have hab : a.variation_end_at = b.variation_begin_at := by
        apply hparts.1
        simp
      have htail := ih hparts.2 (fun u hu => hmono u (List.mem_cons_of_mem a hu)) w hw
      rcases List.mem_cons.mp hv with h | h
      · subst h
        calc v.variation_end_at = b.variation_begin_at := hab
          _ ≤ b.variation_end_at := hmono b (by simp)
          _ ≤ w.variation_end_at := htail b (by simp)
      · exact htail v h

/-- The sequencer's output for a non-empty id list whose primary is its head:
first segment begins at the cursor with no parent, adjacent segments are
gap-free, and every later segment's parent is the first segment's service id. -/
theorem seqGo_zero_props (cache : VarCache) (x : String) (rest : List String) (c : Int) :
    ((seqGo cache x c 0 (x :: rest)).head?.map (fun v => v.variation_begin_at)) = some c
    ∧ ((seqGo cache x c 0 (x :: rest)).head?.map (fun v => v.variation_mytime_id)) = some x
    ∧ List.Chain' (fun a b => a.variation_end_at = b.variation_begin_at)
        (seqGo cache x c 0 (x :: rest))
    ∧ (∀ v, (seqGo cache x c 0 (x :: rest)).head? = some v → v.parent_id = none)
    ∧ (∀ v ∈ (seqGo cache x c 0 (x :: rest)).tail, v.parent_id = some x) := by
  refine ⟨?_, ?_, seqGo_chain cache x _ c 0, ?_, ?_⟩
  · simp [seqGo]
  · simp [seqGo]
  · intro v hv
    simp only [seqGo, List.head?_cons, Option.some.injEq] at hv
    subst hv
    rfl
  · intro v hv
    simp only [seqGo, List.tail_cons] at hv
    exact seqGo_parent cache x rest _ 1 (by omega) v hv

/-- C3: for a non-boarding multi-service booking, the compiled segment list is
the sequencer output: segment 0 begins at the requested start instant and has
no parent; adjacent segments satisfy `segment[i].end = segment[i+1].begin`
(`List.Chain'`); and every segment past index 0 carries
`parent_id` equal to the first (primary) segment's service id. -/
theorem c3_sequencer_gap_free_and_parented (cache : VarCache)
    (names : List (String × String)) (req : DirectBookingRequest)
    (ids : List String) (arr : List BookedVariation) (q : CompiledPayload)
    (hids : req.variations = some ids) (hne : ids ≠ [])
    (harr : buildInitialVariations cache req = some arr)
    (hnb : isBoardingOf cache names arr = false)
    (hq : directCompile cache names req = CompileOutcome.payload q) :
    q.variations = arr
    ∧ (arr.head?.map (fun v => v.variation_begin_at)) = some req.beginAt
    ∧ List.Chain' (fun a b => a.variation_end_at = b.variation_begin_at) arr
    ∧ (∀ v, arr.head? = some v → v.parent_id = none)
    ∧ (∀ v ∈ arr.tail, v.parent_id = arr.head?.map (fun w => w.variation_mytime_id)) := by
  have hlen : ids.length > 0 := List.length_pos.mpr hne
  have hq' : q.variations = arr := by
    simp only [directCompile, harr, CompileOutcome.payload.injEq] at hq
    subst hq
    simp [finalizeAppointment, hnb]
  have harr' : ∃ x rest, arr = seqGo cache x req.beginAt 0 (x :: rest) := by
    simp only [buildInitialVariations, hids, if_pos hlen, Option.some.injEq] at harr
    by_cases hall : ids.all (fun id => ADD_ON_VARIATION_IDS.contains id)
    · refine ⟨SPA_PRIMARY_SERVICE_ID, ids, ?_⟩
      rw [← harr, if_pos hall]
      rfl
    · obtain ⟨x, rest, rfl⟩ := List.exists_cons_of_ne_nil hne
      refine ⟨x, rest, ?_⟩
      rw [← harr, if_neg hall]
      rfl
  obtain ⟨x, rest, rfl⟩ := harr'
  obtain ⟨h1, h2, h3, h4, h5⟩ := seqGo_zero_props cache x rest req.beginAt
  exact ⟨hq', h1, h3, h4, by rw [h2]; exact h5⟩

/-- The Bath + Townie Bath request of the spec scenario, at instant 0. -/
def spaScenarioReq : DirectBookingRequest :=
  ⟨none, none, some ["99860007", "91629719"], 0, none, none, none⟩

/-- The sequencer output for `spaScenarioReq` over `sampleCache`:
Bath `[0, 1min]`, Townie Bath `[1min, 16min]`. -/
def spaScenarioArr : List BookedVariation :=
  [⟨"99860007", some "99860007", "295289", 0, 60000, 25, none⟩,
   ⟨"91629719", some "91629719", "295289", 60000, 960000, 30, some "99860007"⟩]

/-- The compiled payload for `spaScenarioReq` over `sampleCache`. -/
def spaScenarioPayload : CompiledPayload :=
  ⟨0, 960000, "295289", spaScenarioArr⟩

/-- Concrete instantiation of C3: Bath primary plus Townie Bath add-on starting
at instant 0; the sequencer yields Bath `[0, 1min]` with no parent and Townie
Bath `[1min, 16min]` with `parent_id` Bath, gap-free. -/
theorem c3_sequencer_gap_free_and_parented_witness :
    spaScenarioPayload.variations = spaScenarioArr
    ∧ (spaScenarioArr.head?.map (fun v => v.variation_begin_at)) = some 0
    ∧ List.Chain' (fun a b => a.variation_end_at = b.variation_begin_at) spaScenarioArr
    ∧ (∀ v, spaScenarioArr.head? = some v → v.parent_id = none)
    ∧ (∀ v ∈ spaScenarioArr.tail,
        v.parent_id = spaScenarioArr.head?.map (fun w => w.variation_mytime_id)) :=
  c3_sequencer_gap_free_and_parented sampleCache VARIATION_NAMES_initial
    spaScenarioReq ["99860007", "91629719"] spaScenarioArr spaScenarioPayload
    rfl (by decide) (by decide) (by decide) (by decide)

/-! ### C2: the boarding expansion -/

/-- C2: when the compiled booking is classified as boarding, the payload holds
exactly `nights` segments, `nights = max(1, round((checkout − checkin)/24h))`
with the checkout hint defaulting to `checkin + 24h`, and segment `i` spans
`[checkin + i·nightSpan, checkin + (i+1)·nightSpan]` where `nightSpan` is the
primary record's unit-span lower bound (1440 minutes when absent or zero). -/
theorem c2_boarding_night_expansion (cache : VarCache) (names : List (String × String))
    (beginAt : Int) (endAt : Option Int) (arr : List BookedVariation)
    (hb : isBoardingOf cache names arr = true) :
    (finalizeAppointment cache names beginAt endAt arr).variations.length
        = (nightsOf beginAt endAt).toNat
    ∧ (∀ i : Nat, i < (nightsOf beginAt endAt).toNat →
        ((finalizeAppointment cache names beginAt endAt arr).variations.map
            (fun v => (v.variation_begin_at, v.variation_end_at)))[i]?
          = some (beginAt + (i : Int) * baseSpanOf cache arr * 60000,
                  beginAt + ((i : Int) + 1) * baseSpanOf cache arr * 60000))
    ∧ nightsOf beginAt endAt
        = max 1 (jsMathRound (checkoutDateOf beginAt endAt - beginAt) msPerDay)
    ∧ 1 ≤ nightsOf beginAt endAt := by
  refine ⟨?_, ?_, rfl, le_max_left 1 _⟩
  · simp only [finalizeAppointment]
    rw [if_pos hb]
    simp only [nightVariationsOf, List.length_map, List.length_range]
  · intro i hi
    simp only [finalizeAppointment]
    rw [if_pos hb]
    simp only [nightVariationsOf, List.map_map, List.getElem?_map]
    rw [List.getElem?_range hi]
    rfl

/-- The boarding request array of the spec's 3-night scenario. -/
def boardScenarioArr : List BookedVariation :=
  [⟨"91404079", some "91404079", "295288", 0, 86400000, 55, none⟩]

/-- C2 at the concrete spec scenario: boarding with check-in at instant 0 and a
checkout hint 3 days later expands into exactly 3 nights of 1440 minutes. -/
theorem c2_boarding_night_expansion_witness :
    ((finalizeAppointment sampleCache VARIATION_NAMES_initial 0 (some 259200000)
        boardScenarioArr).variations.length = (nightsOf 0 (some 259200000)).toNat
      ∧ (∀ i : Nat, i < (nightsOf 0 (some 259200000)).toNat →
          ((finalizeAppointment sampleCache VARIATION_NAMES_initial 0 (some 259200000)
              boardScenarioArr).variations.map
              (fun v => (v.variation_begin_at, v.variation_end_at)))[i]?
            = some (0 + (i : Int) * baseSpanOf sampleCache boardScenarioArr * 60000,
                    0 + ((i : Int) + 1) * baseSpanOf sampleCache boardScenarioArr * 60000))
      ∧ nightsOf 0 (some 259200000)
          = max 1 (jsMathRound (checkoutDateOf 0 (some 259200000) - 0) msPerDay)
      ∧ 1 ≤ nightsOf 0 (some 259200000))
    ∧ nightsOf 0 (some 259200000) = 3
    ∧ baseSpanOf sampleCache boardScenarioArr = 1440 :=
  ⟨c2_boarding_night_expansion sampleCache VARIATION_NAMES_initial 0 (some 259200000)
      boardScenarioArr (by decide),
    by decide, by decide⟩

/-! ### C9: the all-add-ons prepend rule -/

/-- A request whose only service is flagged `add_on` in the catalog cache but
is not in the hardcoded `ADD_ON_VARIATION_IDS` set. -/
def customAddOnCache : VarCache :=
  [("123456", ⟨"123456", "Custom Addon", "Spa", "123456", 0, true, 10, some (15, 15), false⟩)]

def customAddOnReq : DirectBookingRequest :=
  ⟨none, none, some ["123456"], 0, none, none, none⟩

/-- C9 as stated is false: a request whose every service is flagged as an
add-on in the catalog (`add_on = true`) does NOT get the primary spa service
prepended, because the code tests membership in the hardcoded
`ADD_ON_VARIATION_IDS` set instead of the catalog flag. Here the single
requested id `123456` is an add-on per the cache, yet segment 0 of the
compiled appointment is `123456` itself (an add-on), not
`SPA_PRIMARY_SERVICE_ID`. -/
theorem c9_counterexample_catalog_flagged_addon_not_prepended :
    ((cacheGet customAddOnCache "123456").map (fun i => i.add_on) = some true)
    ∧ buildInitialVariations customAddOnCache customAddOnReq
        = some [⟨"123456", some "123456", "295289", 0, 900000, 10, none⟩]
    ∧ ("123456" : String) ≠ SPA_PRIMARY_SERVICE_ID := by
  refine ⟨by decide, by decide, by decide⟩

/-- C9 amended: when every requested id belongs to the hardcoded
`ADD_ON_VARIATION_IDS` set, the compiler prepends `SPA_PRIMARY_SERVICE_ID` as
segment 0; that id is itself not in the add-on set, so the appointment gets a
non-add-on (per that set) anchoring primary segment. -/
theorem c9_all_addons_prepends_spa_primary (cache : VarCache)
    (req : DirectBookingRequest) (ids : List String) (arr : List BookedVariation)
    (hids : req.variations = some ids) (hne : ids ≠ [])
    (hall : ids.all (fun id => ADD_ON_VARIATION_IDS.contains id) = true)
    (harr : buildInitialVariations cache req = some arr) :
    (arr.head?.map (fun v => v.variation_mytime_id)) = some SPA_PRIMARY_SERVICE_ID
    ∧ SPA_PRIMARY_SERVICE_ID ∉ ADD_ON_VARIATION_IDS := by
  have hlen : ids.length > 0 := List.length_pos.mpr hne
  simp only [buildInitialVariations, hids, if_pos hlen, Option.some.injEq] at harr
  rw [if_pos hall] at harr
  constructor
  · rw [← harr]
    simp [seqGo]
  · decide

/-- C9 amended, concretely: a request for Nails only (id `91425203`, a member
of `ADD_ON_VARIATION_IDS`) compiles with Bath (`99860007`) prepended as
segment 0. -/
theorem c9_all_addons_prepends_spa_primary_witness :
    (([⟨"99860007", some "99860007", "295289", 0, 60000, 25, none⟩,
       ⟨"91425203", some "91425203", "295289", 60000, 960000, 0, some "99860007"⟩]
        : List BookedVariation).head?.map (fun v => v.variation_mytime_id))
      = some SPA_PRIMARY_SERVICE_ID
    ∧ SPA_PRIMARY_SERVICE_ID ∉ ADD_ON_VARIATION_IDS :=
  c9_all_addons_prepends_spa_primary sampleCache
    ⟨none, none, some ["91425203"], 0, none, none, none⟩ ["91425203"]
    [⟨"99860007", some "99860007", "295289", 0, 60000, 25, none⟩,
     ⟨"91425203", some "91425203", "295289", 60000, 960000, 0, some "99860007"⟩]
    rfl (by decide) (by decide) (by decide)

/-! ### C1: appointment end instant = latest segment end -/

/-- A successful cache lookup returns a record stored in the cache. -/
theorem cacheGet_mem (cache : VarCache) (id : String) (info : VariationInfo)
    (h : cacheGet cache id = some info) : ∃ k, (k, info) ∈ cache := by
  unfold cacheGet mapGet at h
  cases hf : cache.find? (fun p => p.1 == id) with
  | none => rw [hf] at h; simp at h
  | some q =>
    rw [hf] at h
    simp only [Option.map_some', Option.some.injEq] at h
    refine ⟨q.1, ?_⟩
    rw [← h]
    simpa using List.mem_of_find?_eq_some hf

/-- Catalog well-formedness: every cached `time_span_range` lower bound is
non-negative (the upstream field is a `[min,max]` duration pair, §3 of the
spec; a negative span has no meaning). -/
def cacheSpansNonneg (cache : VarCache) : Bool :=
  cache.all (fun e =>
    match e.2.time_span_range with
    | some r => decide (0 ≤ r.1)
    | none => true)

/-- Under span well-formedness, the boarding night span is positive: either
the positive unit-span lower bound or the 1440-minute default. -/
theorem baseSpanOf_pos (cache : VarCache) (arr : List BookedVariation)
    (hwf : cacheSpansNonneg cache = true) : 0 < baseSpanOf cache arr := by
  unfold baseSpanOf
  cases hb : (primaryInfoOf cache arr).bind (fun i => i.time_span_range.map (fun r => r.1)) with
  | none => simp [jsOrInt]
  | some v =>
    rw [Option.bind_eq_some] at hb
    obtain ⟨info, hinfo, hmap⟩ := hb
    rw [Option.map_eq_some'] at hmap
    obtain ⟨r, hr, hv⟩ := hmap
    have hmem : ∃ k, (k, info) ∈ cache := by
      unfold primaryInfoOf at hinfo
      cases hid : primaryVarIdRaw arr with
      | none => rw [hid] at hinfo; simp at hinfo
      | some id =>
        rw [hid] at hinfo
        exact cacheGet_mem cache id info hinfo
    obtain ⟨k, hk⟩ := hmem
    have hall := List.all_eq_true.mp hwf (k, info) hk
    rw [show (k, info).2 = info from rfl, hr] at hall
    have hnn : 0 ≤ r.1 := of_decide_eq_true hall
    simp only [jsOrInt]
    by_cases h0 : v = 0
    · simp [h0]
    · rw [if_neg h0]
      omega

/-- The array fed into `finalizeAppointment` is either a sequencer run on a
non-empty id list headed by its own primary, or the single-variation segment
(which never ends before it begins). -/
theorem buildInitialVariations_shape (cache : VarCache) (req : DirectBookingRequest)
    (arr : List BookedVariation) (h : buildInitialVariations cache req = some arr) :
    (∃ x rest, arr = seqGo cache x req.beginAt 0 (x :: rest))
    ∨ (∃ v, arr = [v] ∧ v.variation_begin_at ≤ v.variation_end_at) := by
  have hsingle : ∀ (harr : buildSingleVariation cache req = some arr),
      ∃ v, arr = [v] ∧ v.variation_begin_at ≤ v.variation_end_at := by
    intro harr
    unfold buildSingleVariation at harr
    split at harr
    · rename_i vid hvid
      split at harr
      · exact absurd harr (by simp)
      · simp only [Option.some.injEq] at harr
        refine ⟨_, harr.symm, ?_⟩
        have hd := getVariationDuration_pos cache vid
        show req.beginAt ≤ req.beginAt + jsOrInt (some (getApiDuration cache vid)) 15 * 60000
        unfold getApiDuration
        simp only [jsOrInt]
        by_cases h0 : getVariationDuration cache vid = 0
        · omega
        · rw [if_neg h0]
          omega
    · exact absurd harr (by simp)
  unfold buildInitialVariations at h
  split at h
  · rename_i vs hvs
    split at h
    · rename_i hlen
      simp only [Option.some.injEq] at h
      left
      by_cases hall : vs.all (fun id => ADD_ON_VARIATION_IDS.contains id)
      · refine ⟨SPA_PRIMARY_SERVICE_ID, vs, ?_⟩
        rw [← h, if_pos hall]
        rfl
      · obtain ⟨x, rest, rfl⟩ := List.exists_cons_of_ne_nil (List.length_pos.mp hlen)
        refine ⟨x, rest, ?_⟩
        rw [← h, if_neg hall]
        rfl
    · exact Or.inr (hsingle h)
  · exact Or.inr (hsingle h)

theorem range_map_getLast? {β : Type} (f : Nat → β) (m : Nat) :
    ((List.range (m + 1)).map f).getLast? = some (f m) := by
  rw [List.range_succ, List.map_append]
  simp

theorem night_end_le (b s : Int) (hs : 0 < s) (m i : Nat) (hi : i < m + 1) :
    b + ((i : Int) + 1) * s * 60000 ≤ b + ((m : Int) + 1) * s * 60000 := by
  have h1 : ((i : Int) + 1) * s ≤ ((m : Int) + 1) * s := by
    apply mul_le_mul_of_nonneg_right _ (le_of_lt hs)
    have hc : (i : Int) ≤ (m : Int) := by exact_mod_cast Nat.lt_succ_iff.mp hi
    omega
  have h2 := mul_le_mul_of_nonneg_right h1 (by norm_num : (0:Int) ≤ 60000)
  omega

/-- The per-night expansion's last end is the latest end among its segments. -/
theorem nightVariations_end_latest (cache : VarCache) (beginAt : Int) (endAt : Option Int)
    (arr : List BookedVariation) (hs : 0 < baseSpanOf cache arr) :
    (((nightVariationsOf cache beginAt endAt arr).getLast?.map
        (fun v => v.variation_end_at)).getD 0)
      ∈ (nightVariationsOf cache beginAt endAt arr).map (fun v => v.variation_end_at)
    ∧ ∀ e ∈ (nightVariationsOf cache beginAt endAt arr).map (fun v => v.variation_end_at),
        e ≤ (((nightVariationsOf cache beginAt endAt arr).getLast?.map
            (fun v => v.variation_end_at)).getD 0) := by
  obtain ⟨m, hm⟩ : ∃ m, (nightsOf beginAt endAt).toNat = m + 1 := by
    refine ⟨(nightsOf beginAt endAt).toNat - 1, ?_⟩
    have h1 : 1 ≤ nightsOf beginAt endAt := le_max_left 1 _
    omega
  simp only [nightVariationsOf, hm]
  rw [range_map_getLast?]
  simp only [Option.map_some', Option.getD_some]
  constructor
  · rw [List.map_map]
    exact List.mem_map_of_mem _ (List.mem_range.mpr (Nat.lt_succ_self m))
  · intro e he
    rw [List.map_map] at he
    obtain ⟨i, hi, rfl⟩ := List.mem_map.mp he
    rw [List.mem_range] at hi
    exact night_end_le beginAt (baseSpanOf cache arr) hs m i hi

/-- C1: for every compiled appointment (daycare, spa with any number of
add-ons, evaluation, boarding with one or more nights), the appointment-level
`end_at` equals the maximum of its segments' `variation_end_at` values: it is
the end of some segment, and no segment ends later. No segment is ever
classified as a buffer, so all segments count. The `cacheSpansNonneg`
hypothesis states that cached unit spans are non-negative durations (§3). -/
theorem c1_end_at_is_latest_segment_end (cache : VarCache)
    (names : List (String × String)) (req : DirectBookingRequest) (p : CompiledPayload)
    (hwf : cacheSpansNonneg cache = true)
    (hc : directCompile cache names req = CompileOutcome.payload p) :
    p.end_at ∈ p.variations.map (fun v => v.variation_end_at)
    ∧ ∀ e ∈ p.variations.map (fun v => v.variation_end_at), e ≤ p.end_at := by
  unfold directCompile at hc
  cases hbuild : buildInitialVariations cache req with
  | none => rw [hbuild] at hc; cases hc
  | some arr =>
    rw [hbuild] at hc
    simp only [CompileOutcome.payload.injEq] at hc
    subst hc
    by_cases hb : isBoardingOf cache names arr = true
    · -- boarding branch: the per-night expansion
      have hs : 0 < baseSpanOf cache arr := baseSpanOf_pos cache arr hwf
      have hprops := nightVariations_end_latest cache req.beginAt req.endAt arr hs
      simp only [finalizeAppointment]
      rw [if_pos hb]
      exact hprops
    · -- non-boarding branch: the segment list is the built array
      simp only [finalizeAppointment]
      rw [if_neg hb]
      simp only []
      have hshape := buildInitialVariations_shape cache req arr hbuild
      have hchain : List.Chain' (fun a b => a.variation_end_at = b.variation_begin_at) arr := by
        rcases hshape with ⟨x, rest, rfl⟩ | ⟨v, rfl, _⟩
        · exact seqGo_chain cache x _ req.beginAt 0
        · simp
      have hmono : ∀ v ∈ arr, v.variation_begin_at ≤ v.variation_end_at := by
        rcases hshape with ⟨x, rest, rfl⟩ | ⟨v, rfl, hv⟩
        · exact seqGo_begin_le_end cache x _ req.beginAt 0
        · intro u hu
          simp only [List.mem_singleton] at hu
          rw [hu]; exact hv
      have hne : arr ≠ [] := by
        rcases hshape with ⟨x, rest, rfl⟩ | ⟨v, rfl, _⟩
        · intro hnil
          have := seqGo_length cache x (x :: rest) req.beginAt 0
          rw [hnil] at this
          simp at this
        · simp
      obtain ⟨w, hw⟩ : ∃ w, arr.getLast? = some w := by
        have := List.getLast?_isSome.mpr hne
        exact Option.isSome_iff_exists.mp this
      rw [hw]
      simp only [Option.map_some', Option.getD_some]
      constructor
      · exact List.mem_map_of_mem _ (List.mem_of_getLast?_eq_some hw)
      · intro e he
        obtain ⟨v, hv, rfl⟩ := List.mem_map.mp he
        exact chain_end_le_last arr hchain hmono w hw v hv

/-- C1 at the concrete spa scenario: the compiled Bath + Townie Bath payload's
`end_at` (16 minutes after start) is the latest of its segment ends. -/
theorem c1_end_at_is_latest_segment_end_witness :
    spaScenarioPayload.end_at
        ∈ spaScenarioPayload.variations.map (fun v => v.variation_end_at)
    ∧ ∀ e ∈ spaScenarioPayload.variations.map (fun v => v.variation_end_at),
        e ≤ spaScenarioPayload.end_at :=
  c1_end_at_is_latest_segment_end sampleCache VARIATION_NAMES_initial
    spaScenarioReq spaScenarioPayload (by decide) (by decide)

/-! ### The catalog cache refresh (`loadVariationsCache`, lines 231-348)

The two upstream fetches are modelled as `Except` outcomes supplied to the
function, and the network calls actually issued are returned as a list of
`FetchEvent`s: the Booking API fetch (line 245) is always issued first; the
Partner API pricing fetch (line 251) is issued only if the Booking API call
returned (its own failure is caught on line 261 and degrades to an empty
pricing list). The outer catch (line 345) leaves whatever state existed at
the failure point — note the `variationCache.clear()` on line 235 has already
run on a forced refresh. -/

structure RawPricing where
  existing_list_price : Option Int
  new_list_price : Option Int
deriving Repr, DecidableEq

/-- A raw variation object from the Booking API response (fields read on
lines 287-331). -/
structure RawBookingVariation where
  id : Option Int
  mytime_id : Option Int
  name : Option String
  service_name : Option String
  external_id : Option String
  duration : Option Int
  add_on : Option Bool
  price : Option Int
  pricings : Option (List RawPricing)
  time_span_range : Option (Int × Int)
  multiplier_enabled : Option Bool
deriving Repr, DecidableEq

/-- A raw variation object from the Partner API pricing response (fields read
on lines 267-279). -/
structure RawPartnerVariation where
  id : Int
  pricings : Option (List RawPricing)
  price : Option Int
deriving Repr, DecidableEq

/-- Lines 266-280: the `variation_id -> price` lookup built from the Partner
API list; only strictly positive prices are stored. -/
def buildPriceMap (partnerVariations : List RawPartnerVariation) : List (Int × Int) :=
  partnerVariations.foldl (fun priceMap pv =>
    let price :=
      match pv.pricings with
      | some ps =>
        if ps.length > 0 then
          jsOrInt (ps.headD ⟨none, none⟩).existing_list_price
            (jsOrInt (ps.headD ⟨none, none⟩).new_list_price 0)
        else
          match pv.price with
          | some x => x
          | none => 0
      | none =>
        match pv.price with
        | some x => x
        | none => 0
    if price > 0 then mapSet priceMap pv.id price else priceMap) []

/-- Lines 287-326: one loop iteration building the `VariationInfo` record for
a Booking API entry, merging the Partner API price when present. -/
def mkVariationInfo (priceMap : List (Int × Int)) (v : RawBookingVariation) :
    String × VariationInfo :=
  let id := match jsOrOptInt v.id v.mytime_id with
    | some n => toString n
    | none => "undefined"
  let mergedPrice0 :=
    jsOrInt ((v.pricings.bind (fun ps => ps.head?)).bind (fun x => x.existing_list_price))
      (jsOrInt v.price 0)
  let mergedPrice :=
    match v.id with
    | some n =>
      match mapGet priceMap n with
      | some partnerPrice => partnerPrice
      | none => mergedPrice0
    | none => mergedPrice0
  (id,
   { id := id,
     name := jsOrStr v.name "Unknown",
     service_name := jsOrStr v.service_name "Unknown",
     externalId := jsOrStr v.external_id id,
     duration := jsOrInt v.duration 0,
     add_on := jsOrBool v.add_on,
     price := mergedPrice,
     time_span_range := v.time_span_range,
     multiplier_enabled := jsOrBool v.multiplier_enabled })

/-- The two module-level mutable maps touched by the refresh:
`variationCache` and `VARIATION_NAMES`. -/
structure CacheState where
  variationCache : VarCache
  variationNames : List (String × String)
deriving Repr, DecidableEq

inductive FetchEvent where
  | bookingFetch : FetchEvent
  | partnerFetch : FetchEvent
deriving Repr, DecidableEq

/-- The outcomes the two upstream endpoints would deliver if called; `none`
payloads model responses whose `variations` field is absent (`|| []`). -/
structure UpstreamOutcomes where
  bookingResult : Except String (Option (List RawBookingVariation))
  partnerResult : Except String (Option (List RawPartnerVariation))
deriving Repr

/-- Lines 287-333: store one Booking API entry in the cache; a non-`Unknown`
name also updates the `VARIATION_NAMES` lookup (lines 330-332). -/
def applyBookingVariation (st : CacheState) (priceMap : List (Int × Int))
    (v : RawBookingVariation) : CacheState :=
  let entry := mkVariationInfo priceMap v
  let st1 := { st with variationCache := mapSet st.variationCache entry.1 entry.2 }
  if entry.2.name != "" && entry.2.name != "Unknown" then
    { st1 with variationNames := mapSet st1.variationNames entry.1 entry.2.name }
  else
    st1

/-- The fetch-and-fill part of the refresh (lines 240-344), starting from the
state `st` as it stands when the Booking API fetch is issued. -/
def loadVariationsCacheFetch (st : CacheState) (up : UpstreamOutcomes) :
    CacheState × List FetchEvent :=
  match up.bookingResult with
  | Except.error _ => (st, [FetchEvent.bookingFetch])
  | Except.ok bookingResponse =>
    let partnerVariations :=
      match up.partnerResult with
      | Except.error _ => []
      | Except.ok resp => resp.getD []
    let priceMap := buildPriceMap partnerVariations
    let variations := bookingResponse.getD []
    let st2 := variations.foldl (fun acc v => applyBookingVariation acc priceMap v) st
    (st2, [FetchEvent.bookingFetch, FetchEvent.partnerFetch])

/-- `loadVariationsCache(force)` (lines 231-348): a forced refresh clears the
cache FIRST (line 235) and then fetches; a non-forced refresh with a non-empty
cache returns without any network call (lines 236-238). -/
def loadVariationsCache (st : CacheState) (force : Bool) (up : UpstreamOutcomes) :
    CacheState × List FetchEvent :=
  if force then
    loadVariationsCacheFetch { st with variationCache := [] } up
  else if st.variationCache.length > 0 then
    (st, [])
  else
    loadVariationsCacheFetch st up

/-! ### C5: cache retention on a failed fetch -/

/-- C5 as stated is false for forced refreshes: with a non-empty cache, a
forced refresh whose Booking API fetch fails leaves the cache EMPTY, not
intact, because `variationCache.clear()` (line 235) runs before the fetch. -/
theorem c5_counterexample_forced_refresh_wipes_cache :
    (loadVariationsCache ⟨[("91404079", boardingSample)], []⟩ true
        ⟨Except.error "network down", Except.error "network down"⟩).1.variationCache = []
    ∧ ([("91404079", boardingSample)] : VarCache) ≠ [] :=
  ⟨rfl, by decide⟩

/-- C5 amended: on a NON-forced refresh a failed primary fetch leaves the
previous cache contents fully intact; on a FORCED refresh the cache is cleared
before fetching, so a failed primary fetch leaves it empty (the previous
contents are lost, not retained). In both cases the failure is absorbed (the
function returns normally). -/
theorem c5_failed_fetch_cache_retention (st : CacheState) (up : UpstreamOutcomes)
    (e : String) (herr : up.bookingResult = Except.error e) :
    (loadVariationsCache st false up).1.variationCache = st.variationCache
    ∧ (loadVariationsCache st true up).1.variationCache = [] := by
  constructor
  · unfold loadVariationsCache
    rw [if_neg Bool.false_ne_true]
    by_cases hlen : st.variationCache.length > 0
    · rw [if_pos hlen]
    · rw [if_neg hlen]
      unfold loadVariationsCacheFetch
      rw [herr]
  · unfold loadVariationsCache
    rw [if_pos rfl]
    unfold loadVariationsCacheFetch
    rw [herr]

/-- C5 amended, concretely: one cached boarding record, Booking API fetch
fails; the non-forced refresh keeps the record, the forced refresh ends empty. -/
theorem c5_failed_fetch_cache_retention_witness :
    (loadVariationsCache ⟨[("91404079", boardingSample)], []⟩ false
        ⟨Except.error "ECONNREFUSED", Except.ok none⟩).1.variationCache
      = [("91404079", boardingSample)]
    ∧ (loadVariationsCache ⟨[("91404079", boardingSample)], []⟩ true
        ⟨Except.error "ECONNREFUSED", Except.ok none⟩).1.variationCache = [] :=
  c5_failed_fetch_cache_retention ⟨[("91404079", boardingSample)], []⟩
    ⟨Except.error "ECONNREFUSED", Except.ok none⟩ "ECONNREFUSED" rfl

/-! ### C8: refresh idempotence and forced re-fetch -/

/-- C8 as stated is false in its "both upstream sources" half: a forced
refresh whose Booking API fetch fails never issues the Partner API fetch. -/
theorem c8_counterexample_forced_refresh_skips_partner_on_error :
    (loadVariationsCache ⟨[("91404079", boardingSample)], []⟩ true
        ⟨Except.error "network down", Except.ok (some [])⟩).2 = [FetchEvent.bookingFetch]
    ∧ FetchEvent.partnerFetch
        ∉ (loadVariationsCache ⟨[("91404079", boardingSample)], []⟩ true
            ⟨Except.error "network down", Except.ok (some [])⟩).2 := by
  refine ⟨rfl, by decide⟩

/-- C8 amended: a non-forced refresh with a non-empty cache performs zero
network calls; a forced refresh always issues the Booking API fetch regardless
of cache state, and issues the Partner API fetch as well whenever the Booking
API fetch returns. -/
theorem c8_refresh_network_calls (st : CacheState) (up : UpstreamOutcomes)
    (hne : st.variationCache ≠ []) :
    (loadVariationsCache st false up).2 = []
    ∧ FetchEvent.bookingFetch ∈ (loadVariationsCache st true up).2
    ∧ (∀ resp, up.bookingResult = Except.ok resp →
        (loadVariationsCache st true up).2
          = [FetchEvent.bookingFetch, FetchEvent.partnerFetch]) := by
  refine ⟨?_, ?_, ?_⟩
  · unfold loadVariationsCache
    rw [if_neg Bool.false_ne_true]
    rw [if_pos (List.length_pos.mpr hne)]
  · unfold loadVariationsCache
    rw [if_pos rfl]
    unfold loadVariationsCacheFetch
    cases hb : up.bookingResult with
    | error e => simp
    | ok resp => simp
  · intro resp hresp
    unfold loadVariationsCache
    rw [if_pos rfl]
    unfold loadVariationsCacheFetch
    rw [hresp]

/-- C8 amended, concretely: with one cached record, a non-forced refresh makes
no network call, and a forced refresh with a successful primary fetch issues
both fetches. -/
theorem c8_refresh_network_calls_witness :
    (loadVariationsCache ⟨[("91404079", boardingSample)], []⟩ false
        ⟨Except.ok (some []), Except.ok (some [])⟩).2 = []
    ∧ FetchEvent.bookingFetch
        ∈ (loadVariationsCache ⟨[("91404079", boardingSample)], []⟩ true
            ⟨Except.ok (some []), Except.ok (some [])⟩).2
    ∧ (∀ resp, (⟨Except.ok (some []), Except.ok (some [])⟩ : UpstreamOutcomes).bookingResult
          = Except.ok resp →
        (loadVariationsCache ⟨[("91404079", boardingSample)], []⟩ true
            ⟨Except.ok (some []), Except.ok (some [])⟩).2
          = [FetchEvent.bookingFetch, FetchEvent.partnerFetch]) :=
  c8_refresh_network_calls ⟨[("91404079", boardingSample)], []⟩
    ⟨Except.ok (some []), Except.ok (some [])⟩ (by decide)

/-! ### The full request lifecycle of POST /api/appointments/direct -/

inductive NetEvent where
  | catalogBookingFetch : NetEvent
  | catalogPartnerFetch : NetEvent
  | submitAppointment : NetEvent
  | clientCheckIn : NetEvent
deriving Repr, DecidableEq

def fetchToNet : FetchEvent → NetEvent
  | FetchEvent.bookingFetch => NetEvent.catalogBookingFetch
  | FetchEvent.partnerFetch => NetEvent.catalogPartnerFetch

inductive HandlerResponse where
  | missingVariations : HandlerResponse
  | caughtError : HandlerResponse
deriving Repr, DecidableEq

/-- The handler of `POST /api/appointments/direct` (lines 836-1120) as a state
transformer returning the network calls issued and the response sent.
Control flow from the source:
1. line 839: `await loadVariationsCache(true)` — the forced catalog refresh
   runs FIRST, before any validation, and issues its network fetches;
2. lines 843-965: build `variationsArray`; a request with no usable service
   ids is answered `400 \x7b error: 'Missing variations' \x7d` (line 964);
3. lines 967-1081: assemble the payload;
4. line 1084 then evaluates `queryParams` — an identifier declared nowhere in
   the module (its only occurrences in `src/server/index.ts` are the reads on
   lines 1084 and 1087) — so a `ReferenceError` is thrown, the catch on line
   1113 answers with the 500 error response, and the submission
   (`partnerApiRequest('POST', '/appointments', ...)`, line 1087) and the
   auto-check-in block (lines 1089-1107) are never reached. -/
def directBookingHandler (st : CacheState) (req : DirectBookingRequest)
    (up : UpstreamOutcomes) : CacheState × List NetEvent × HandlerResponse :=
  let refreshed := loadVariationsCache st true up
  let st1 := refreshed.1
  let netEvents := refreshed.2.map fetchToNet
  match buildInitialVariations st1.variationCache req with
  | none => (st1, netEvents, HandlerResponse.missingVariations)
  | some variationsArray =>
    let _payload := finalizeAppointment st1.variationCache st1.variationNames
      req.beginAt req.endAt variationsArray
    (st1, netEvents, HandlerResponse.caughtError)

theorem fetchToNet_ne_submit (e : FetchEvent) :
    fetchToNet e ≠ NetEvent.submitAppointment := by
  cases e <;> simp [fetchToNet]

theorem fetchToNet_ne_checkIn (e : FetchEvent) :
    fetchToNet e ≠ NetEvent.clientCheckIn := by
  cases e <;> simp [fetchToNet]

theorem forced_refresh_issues_booking_fetch (st : CacheState) (up : UpstreamOutcomes) :
    FetchEvent.bookingFetch ∈ (loadVariationsCache st true up).2 := by
  unfold loadVariationsCache
  rw [if_pos rfl]
  unfold loadVariationsCacheFetch
  cases hb : up.bookingResult with
  | error e => simp
  | ok resp => simp

/-! ### C6: missing service selection -/

/-- C6 as stated is false: a request with no service ids IS answered with the
missing-service rejection, but only AFTER the forced catalog refresh has made
its network calls (here both catalog fetches) — not "before any network
call". -/
theorem c6_counterexample_refresh_precedes_missing_rejection :
    (directBookingHandler ⟨[], []⟩ ⟨none, none, none, 0, none, none, none⟩
        ⟨Except.ok (some []), Except.ok (some [])⟩).2.2 = HandlerResponse.missingVariations
    ∧ (directBookingHandler ⟨[], []⟩ ⟨none, none, none, 0, none, none, none⟩
        ⟨Except.ok (some []), Except.ok (some [])⟩).2.1
      = [NetEvent.catalogBookingFetch, NetEvent.catalogPartnerFetch] := by
  refine ⟨rfl, rfl⟩

/-- C6 amended: a booking request supplying no service ids (no `variations`
array entry and no usable `variationId`) is rejected with the missing-service
error, and neither the appointment submission nor the check-in call is ever
issued for it; however the rejection happens only after the forced catalog
refresh, which does issue its network fetch(es) first. -/
theorem c6_missing_selection_rejected_before_submission (st : CacheState)
    (req : DirectBookingRequest) (up : UpstreamOutcomes)
    (hvars : req.variations = none ∨ req.variations = some [])
    (hvid : req.variationId = none ∨ req.variationId = some "") :
    (directBookingHandler st req up).2.2 = HandlerResponse.missingVariations
    ∧ NetEvent.submitAppointment ∉ (directBookingHandler st req up).2.1
    ∧ NetEvent.clientCheckIn ∉ (directBookingHandler st req up).2.1
    ∧ NetEvent.catalogBookingFetch ∈ (directBookingHandler st req up).2.1 := by
  have hsingle : buildSingleVariation (loadVariationsCache st true up).1.variationCache req
      = none := by
    unfold buildSingleVariation
    rcases hvid with h | h <;> (rw [h]; try rfl)
  have hbuild : buildInitialVariations (loadVariationsCache st true up).1.variationCache req
      = none := by
    unfold buildInitialVariations
    rcases hvars with h | h <;> (rw [h]; exact hsingle)
  refine ⟨?_, ?_, ?_, ?_⟩
  · simp only [directBookingHandler, hbuild]
  · simp only [directBookingHandler, hbuild]
    intro hmem
    obtain ⟨e, _, heq⟩ := List.mem_map.mp hmem
    exact fetchToNet_ne_submit e heq
  · simp only [directBookingHandler, hbuild]
    intro hmem
    obtain ⟨e, _, heq⟩ := List.mem_map.mp hmem
    exact fetchToNet_ne_checkIn e heq
  · simp only [directBookingHandler, hbuild]
    exact List.mem_map_of_mem fetchToNet (forced_refresh_issues_booking_fetch st up)

/-- C6 amended, concretely: the empty request over an empty cache is rejected
as missing while the catalog fetch has already happened. -/
theorem c6_missing_selection_rejected_before_submission_witness :
    (directBookingHandler ⟨[], []⟩ ⟨none, none, none, 0, none, none, none⟩
        ⟨Except.error "offline", Except.error "offline"⟩).2.2
      = HandlerResponse.missingVariations
    ∧ NetEvent.submitAppointment
        ∉ (directBookingHandler ⟨[], []⟩ ⟨none, none, none, 0, none, none, none⟩
            ⟨Except.error "offline", Except.error "offline"⟩).2.1
    ∧ NetEvent.clientCheckIn
        ∉ (directBookingHandler ⟨[], []⟩ ⟨none, none, none, 0, none, none, none⟩
            ⟨Except.error "offline", Except.error "offline"⟩).2.1
    ∧ NetEvent.catalogBookingFetch
        ∈ (directBookingHandler ⟨[], []⟩ ⟨none, none, none, 0, none, none, none⟩
            ⟨Except.error "offline", Except.error "offline"⟩).2.1 :=
  c6_missing_selection_rejected_before_submission ⟨[], []⟩
    ⟨none, none, none, 0, none, none, none⟩
    ⟨Except.error "offline", Except.error "offline"⟩ (Or.inl rfl) (Or.inl rfl)

/-! ### C10: the undefined `queryParams` identifier -/

/-- C10: every request that passes input validation (the handler builds a
`variationsArray`) terminates in the catch branch's error response, because
line 1084 reads the never-declared identifier `queryParams` and raises a
`ReferenceError` before the submission on line 1087; consequently no
appointment submission and no check-in call is ever issued — the handler's
success path is unreachable. -/
theorem c10_queryParams_reference_error_unreachable_success (st : CacheState)
    (req : DirectBookingRequest) (up : UpstreamOutcomes) (arr : List BookedVariation)
    (hbuilt : buildInitialVariations (loadVariationsCache st true up).1.variationCache req
      = some arr) :
    (directBookingHandler st req up).2.2 = HandlerResponse.caughtError
    ∧ NetEvent.submitAppointment ∉ (directBookingHandler st req up).2.1
    ∧ NetEvent.clientCheckIn ∉ (directBookingHandler st req up).2.1 := by
  refine ⟨?_, ?_, ?_⟩
  · simp only [directBookingHandler, hbuilt]
  · simp only [directBookingHandler, hbuilt]
    intro hmem
    obtain ⟨e, _, heq⟩ := List.mem_map.mp hmem
    exact fetchToNet_ne_submit e heq
  · simp only [directBookingHandler, hbuilt]
    intro hmem
    obtain ⟨e, _, heq⟩ := List.mem_map.mp hmem
    exact fetchToNet_ne_checkIn e heq

/-- C10, concretely: a well-formed Bath + Townie Bath booking request (which
passes validation and compiles into two segments with the 15-minute fallback
durations, the refresh having failed and left the cache empty) still ends in
the catch branch's error response with no submission and no check-in. -/
theorem c10_queryParams_reference_error_unreachable_success_witness :
    (directBookingHandler ⟨[], []⟩ spaScenarioReq
        ⟨Except.error "offline", Except.error "offline"⟩).2.2 = HandlerResponse.caughtError
    ∧ NetEvent.submitAppointment
        ∉ (directBookingHandler ⟨[], []⟩ spaScenarioReq
            ⟨Except.error "offline", Except.error "offline"⟩).2.1
    ∧ NetEvent.clientCheckIn
        ∉ (directBookingHandler ⟨[], []⟩ spaScenarioReq
            ⟨Except.error "offline", Except.error "offline"⟩).2.1 :=
  c10_queryParams_reference_error_unreachable_success ⟨[], []⟩ spaScenarioReq
    ⟨Except.error "offline", Except.error "offline"⟩
    [⟨"99860007", some "99860007", "295289", 0, 900000, 0, none⟩,
     ⟨"91629719", some "91629719", "295289", 900000, 1800000, 0, some "99860007"⟩]
    (by decide)

/-! ### C7: the auto-check-in policy (lines 1089-1107)

The block runs only after a successful submission. Its condition (line 1098)
is `appointmentId && isDaycareService && isSameDay`, where `appointmentId` is
the id extracted from the submission result, `isDaycareService` (lines
1091-1093) checks whether SOME entry of `variationsArray` carries one of the
`DAYCARE_VARIATIONS` ids, and `isSameDay` (lines 1094-1096) compares
`new Date(beginAt).toDateString()` with `new Date().toDateString()` — local
calendar dates, modelled as floor-day indices of the offset-shifted instant
(`tzOffsetMinutes` is the zone's `getTimezoneOffset()`, UTC − local, constant
in this model). Two instants have the same `toDateString()` exactly when they
have the same local day index. -/

/-- JS truthiness of the extracted appointment id string. -/
def jsTruthyStr : Option String → Bool
  | some s => s != ""
  | none => false

/-- Lines 1091-1093: `variationsArray.some(v =>
Object.values(DAYCARE_VARIATIONS).includes(v.variation_mytime_id))`. -/
def isDaycareService (variationsArray : List BookedVariation) : Bool :=
  variationsArray.any (fun v => daycareVariationIdValues.contains v.variation_mytime_id)

/-- The local calendar-day index of an instant in a zone with the given
`getTimezoneOffset()` minutes. -/
def localDayIndex (tzOffsetMinutes : Int) (ms : Int) : Int :=
  Int.fdiv (ms - tzOffsetMinutes * 60000) msPerDay

/-- Line 1098: the check-in call is issued iff this condition holds. -/
def attemptsAutoCheckIn (appointmentId : Option String)
    (variationsArray : List BookedVariation) (beginAt nowMs tzOffsetMinutes : Int) : Bool :=
  jsTruthyStr appointmentId && isDaycareService variationsArray
    && (localDayIndex tzOffsetMinutes beginAt == localDayIndex tzOffsetMinutes nowMs)

/-- C7: after a successful submission (an appointment id was returned), the
automatic check-in is attempted if and only if the appointment is classified
as daycare (some segment carries a `DAYCARE_VARIATIONS` id — the system's
daycare classifier) AND the begin instant falls on today's calendar date in
the system's LOCAL time zone; for every other service family or date no
check-in attempt is made. -/
theorem c7_auto_checkin_iff_same_local_day_daycare (appointmentId : Option String)
    (variationsArray : List BookedVariation) (beginAt nowMs tz : Int)
    (hid : jsTruthyStr appointmentId = true) :
    attemptsAutoCheckIn appointmentId variationsArray beginAt nowMs tz = true
      ↔ ((∃ v ∈ variationsArray, v.variation_mytime_id ∈ daycareVariationIdValues)
          ∧ localDayIndex tz beginAt = localDayIndex tz nowMs) := by
  unfold attemptsAutoCheckIn isDaycareService
  rw [hid]
  simp [List.any_eq_true]

/-- C7 at concrete instants chosen so the begin and "now" instants lie on
DIFFERENT UTC dates but the SAME local date (UTC+2): a daycare segment with an
appointment id checks in; the same begin two days later does not; a boarding
segment on the same day does not. -/
theorem c7_auto_checkin_iff_same_local_day_daycare_witness :
    (attemptsAutoCheckIn (some "9001")
        [⟨"91629241", none, "295287", 82800000, 118800000, 35, none⟩]
        82800000 90000000 (-120) = true
      ↔ ((∃ v ∈ [(⟨"91629241", none, "295287", 82800000, 118800000, 35, none⟩ :
            BookedVariation)], v.variation_mytime_id ∈ daycareVariationIdValues)
          ∧ localDayIndex (-120) 82800000 = localDayIndex (-120) 90000000))
    ∧ attemptsAutoCheckIn (some "9001")
        [⟨"91629241", none, "295287", 82800000, 118800000, 35, none⟩]
        82800000 90000000 (-120) = true
    ∧ attemptsAutoCheckIn (some "9001")
        [⟨"91629241", none, "295287", 82800000, 118800000, 35, none⟩]
        (82800000 + 2 * 86400000) 90000000 (-120) = false
    ∧ attemptsAutoCheckIn (some "9001")
        [⟨"91404079", none, "295288", 82800000, 169200000, 55, none⟩]
        82800000 90000000 (-120) = false
    ∧ Int.fdiv 82800000 msPerDay ≠ Int.fdiv 90000000 msPerDay :=
  ⟨c7_auto_checkin_iff_same_local_day_daycare (some "9001")
      [⟨"91629241", none, "295287", 82800000, 118800000, 35, none⟩]
      82800000 90000000 (-120) (by decide),
    by decide, by decide, by decide, by decide⟩

end QuickerChecker
